import Mathlib

/-!
Verification of the creamSocket-server protocol engine.

The JavaScript sources (`src/CreamSocketServer.js`, `src/CreamSocketParser.js`)
are embedded shallowly: Node `Buffer`/`Uint8Array` values become `List Nat`
(one natural per byte), JavaScript strings become the list of their code
points, JavaScript exceptions become `Except` errors, and the observable
effects of a handler (events emitted, frames written, socket ended) become
explicit result records. The lossy buffer-to-string conversions of the
source (`Buffer.toString('utf8')`, with U+FFFD replacement) and the reverse
string-to-buffer encodings (`TextEncoder().encode`, `Buffer.from(s, 'utf-8')`)
are modelled explicitly by `utf8Decode` and `utf8Encode`; on ASCII data both
are the identity on the underlying naturals.
-/

namespace CreamSocket

/-- Code points of a Lean string literal; the model of a JavaScript string
(and of its UTF-8 bytes, which coincide for ASCII data). -/
def ascii (s : String) : List Nat := s.data.map Char.toNat

/-- JavaScript runtime errors surfaced by the embedded operations:
`rangeError` is Node's `ERR_OUT_OF_RANGE` from `Buffer` reads past the end,
`typeError` is a call of a missing method, `syntaxError` a `JSON.parse`
failure. -/
inductive JsError
  | rangeError
  | typeError
  | syntaxError
deriving DecidableEq, Repr

/-- Model of `buffer.slice(start, end)` on Node buffers: both indices are
clamped to the buffer length, so a slice reaching past the end silently
returns the available bytes. -/
def jsSlice (b : List Nat) (s e : Nat) : List Nat := (b.take e).drop s

/-- Model of `buffer.readUInt16BE(i)`: big-endian 16-bit read, throwing
`ERR_OUT_OF_RANGE` when fewer than two bytes are available at `i`. -/
def readUInt16BE (b : List Nat) (i : Nat) : Except JsError Nat :=
  if i + 2 ≤ b.length then .ok (b.getD i 0 * 256 + b.getD (i + 1) 0)
  else .error .rangeError

/-- Model of `buffer.readBigUInt64BE(i)`: big-endian 64-bit read, throwing
`ERR_OUT_OF_RANGE` when fewer than eight bytes are available at `i`. -/
def readBigUInt64BE (b : List Nat) (i : Nat) : Except JsError Nat :=
  if i + 8 ≤ b.length then
    .ok (b.getD i 0 * 2 ^ 56 + b.getD (i + 1) 0 * 2 ^ 48 + b.getD (i + 2) 0 * 2 ^ 40 +
      b.getD (i + 3) 0 * 2 ^ 32 + b.getD (i + 4) 0 * 2 ^ 24 + b.getD (i + 5) 0 * 2 ^ 16 +
      b.getD (i + 6) 0 * 2 ^ 8 + b.getD (i + 7) 0)
  else .error .rangeError

/-- JavaScript `(n >> k) & 0xff` on a non-negative integer: `>>` first
converts its left operand to a 32-bit integer and reduces the shift count
modulo 32; the trailing `& 0xff` makes the result insensitive to the sign of
that 32-bit value, leaving exactly this arithmetic. -/
def jsShiftByte (n k : Nat) : Nat := n % 2 ^ 32 / 2 ^ (k % 32) % 256

/-- Model of `Buffer.prototype.toString('utf8')` (the WHATWG UTF-8 decoder
Node uses): bytes are decoded to code points, overlong forms, surrogate
ranges and out-of-range leads are rejected, and every maximal invalid
subpart becomes one U+FFFD replacement character. Every step consumes at
least one byte and spends one unit of fuel, so fuel equal to the input
length never runs out. -/
def utf8DecodeF : Nat → List Nat → List Nat
  | _, [] => []
  | 0, _ => []
  | fuel + 1, b :: rest =>
    if b < 0x80 then b :: utf8DecodeF fuel rest
    else if 0xC2 ≤ b ∧ b ≤ 0xDF then
      match rest with
      | [] => [0xFFFD]
      | b1 :: rest1 =>
        if 0x80 ≤ b1 ∧ b1 ≤ 0xBF then
          ((b - 0xC0) * 64 + (b1 - 0x80)) :: utf8DecodeF fuel rest1
        else 0xFFFD :: utf8DecodeF fuel (b1 :: rest1)
    else if 0xE0 ≤ b ∧ b ≤ 0xEF then
      match rest with
      | [] => [0xFFFD]
      | b1 :: rest1 =>
        if (if b = 0xE0 then 0xA0 else 0x80) ≤ b1 ∧ b1 ≤ (if b = 0xED then 0x9F else 0xBF) then
          match rest1 with
          | [] => [0xFFFD]
          | b2 :: rest2 =>
            if 0x80 ≤ b2 ∧ b2 ≤ 0xBF then
              ((b - 0xE0) * 4096 + (b1 - 0x80) * 64 + (b2 - 0x80)) :: utf8DecodeF fuel rest2
            else 0xFFFD :: utf8DecodeF fuel (b2 :: rest2)
        else 0xFFFD :: utf8DecodeF fuel (b1 :: rest1)
    else if 0xF0 ≤ b ∧ b ≤ 0xF4 then
      match rest with
      | [] => [0xFFFD]
      | b1 :: rest1 =>
        if (if b = 0xF0 then 0x90 else 0x80) ≤ b1 ∧ b1 ≤ (if b = 0xF4 then 0x8F else 0xBF) then
          match rest1 with
          | [] => [0xFFFD]
          | b2 :: rest2 =>
            if 0x80 ≤ b2 ∧ b2 ≤ 0xBF then
              match rest2 with
              | [] => [0xFFFD]
              | b3 :: rest3 =>
                if 0x80 ≤ b3 ∧ b3 ≤ 0xBF then
                  ((b - 0xF0) * 262144 + (b1 - 0x80) * 4096 + (b2 - 0x80) * 64 + (b3 - 0x80)) ::
                    utf8DecodeF fuel rest3
                else 0xFFFD :: utf8DecodeF fuel (b3 :: rest3)
            else 0xFFFD :: utf8DecodeF fuel (b2 :: rest2)
        else 0xFFFD :: utf8DecodeF fuel (b1 :: rest1)
    else 0xFFFD :: utf8DecodeF fuel rest

/-- The decoded string (as its code points) of a byte list — the model of
`decodedPayload.toString()`. -/
def utf8Decode (l : List Nat) : List Nat := utf8DecodeF l.length l

/-- UTF-8 bytes of one code point. -/
def utf8EncodeChar (c : Nat) : List Nat :=
  if c < 0x80 then [c]
  else if c < 0x800 then [0xC0 + c / 64, 0x80 + c % 64]
  else if c < 0x10000 then [0xE0 + c / 4096, 0x80 + c / 64 % 64, 0x80 + c % 64]
  else [0xF0 + c / 262144, 0x80 + c / 4096 % 64, 0x80 + c / 64 % 64, 0x80 + c % 64]

/-- Model of `new TextEncoder().encode(s)` (and of `Buffer.from(s, 'utf-8')`)
on a string given as its code points. The strings reaching it here come from
`utf8Decode`, which never produces surrogate code points, so the
encoder's surrogate replacement case does not arise. -/
def utf8Encode (s : List Nat) : List Nat := (s.map utf8EncodeChar).flatten

/-- A decoded frame, the result object of `_decodeFrame`. The source stores
the payload as the JavaScript string `decodedPayload.toString()`; the
embedding stores that string as its list of code points, produced by the
`utf8Decode` model of `Buffer.toString('utf8')`. -/
structure Frame where
  fin : Nat
  opcode : Nat
  payload : List Nat
deriving DecidableEq, Repr

/-- Length field handling of `_decodeFrame`: the low seven bits of the
second byte select a direct, 16-bit big-endian, or 64-bit big-endian payload
length; returns the length together with the offset just past the length
bytes. -/
def readLength (buffer : List Nat) (secondByte : Nat) : Except JsError (Nat × Nat) :=
  let pl0 := secondByte &&& 0x7f
  if pl0 = 126 then
    match readUInt16BE buffer 2 with
    | .ok v => .ok (v, 4)
    | .error e => .error e
  else if pl0 = 127 then
    match readBigUInt64BE buffer 2 with
    | .ok v => .ok (v, 10)
    | .error e => .error e
  else .ok (pl0, 2)

/-- Embedding of `CreamSocketServer._decodeFrame`. The two opening
`readUInt8` calls throw `ERR_OUT_OF_RANGE` exactly when the buffer holds
fewer than two bytes; the payload slice is clamped by `jsSlice`; a masked
payload is unmasked byte by byte with `maskingKey[i % 4]` (a masking key
read past the end yields `undefined`, whose `^` contribution is `0`,
matching `getD`'s default); and the returned payload is the string
`decodedPayload.toString()`, the lossy UTF-8 decoding modelled by
`utf8Decode`. -/
def decodeFrame (buffer : List Nat) : Except JsError Frame :=
  if buffer.length < 2 then .error .rangeError
  else
    let firstByte := buffer.getD 0 0
    let secondByte := buffer.getD 1 0
    let fin := (firstByte &&& 0x80) >>> 7
    let opcode := firstByte &&& 0x0f
    let masked := (secondByte &&& 0x80) >>> 7
    match readLength buffer secondByte with
    | .error e => .error e
    | .ok (payloadLength, offset0) =>
      let maskingKey := if masked = 1 then jsSlice buffer offset0 (offset0 + 4) else []
      let offset := if masked = 1 then offset0 + 4 else offset0
      let payload := jsSlice buffer offset (offset + payloadLength)
      let decodedPayload :=
        if masked = 1 then
          (List.range payload.length).map
            (fun i => (payload.getD i 0 ^^^ maskingKey.getD (i % 4) 0) % 256)
        else payload
      .ok { fin := fin, opcode := opcode, payload := utf8Decode decodedPayload }

/-- Header bytes pushed by `_encodeFrame` (and identically by
`CreamSocketParser.encode`) for a given payload length and opcode. The
64-bit branch pushes `(payloadLength >> (i * 8)) & 0xff` for `i = 7 … 0`,
which under JavaScript shift semantics is `jsShiftByte`, not a true 64-bit
big-endian encoding. -/
def encodeHeader (len opcode : Nat) : List Nat :=
  (0x80 ||| opcode) ::
    (if len < 126 then [len]
     else if len < 65536 then [126, jsShiftByte len 8, jsShiftByte len 0]
     else 127 :: (List.range 8).map (fun i => jsShiftByte len ((7 - i) * 8)))

/-- Embedding of `CreamSocketServer._encodeFrame`: header bytes followed by
the payload bytes (`Buffer.from` of the message, whose byte content the
`List Nat` already is). -/
def encodeFrame (payload : List Nat) (opcode : Nat) : List Nat :=
  encodeHeader payload.length opcode ++ payload

/-- Big-endian byte encoding as the specification words it («the length as
an 8-byte big-endian integer»); defined from the specification for
comparison with the code's output. -/
def beBytes (k n : Nat) : List Nat :=
  (List.range k).map (fun i => n / 2 ^ ((k - 1 - i) * 8) % 256)

/-- Embedding of `CreamSocketParser.encode` under the default `json` format,
taking the UTF-8 payload bytes that `new TextEncoder().encode(String(data))`
produced: the header logic is the same as `_encodeFrame`'s. A caller whose
string may be non-ASCII (the pong path, whose string came out of
`utf8Decode`) composes `utf8Encode` explicitly; for the ASCII strings of the
other call sites the encoding is the identity and the code points are passed
directly. -/
def parserEncode (payload : List Nat) (opcode : Nat) : List Nat :=
  encodeHeader payload.length opcode ++ payload

/-- JavaScript values crossing the embedded API boundaries: strings carry
their code points, `bytes` stands for `Uint8Array`/`Buffer` instances, the
remaining constructors cover the JSON values the envelope protocol uses. -/
inductive JsValue
  | str (chars : List Nat)
  | bytes (b : List Nat)
  | num (n : Int)
  | bool (b : Bool)
  | nullv
  | obj (fields : List (List Nat × JsValue))
  | arr (elems : List JsValue)

/-- Test mirroring `data instanceof Uint8Array`. -/
def isUint8Array : JsValue → Bool
  | .bytes _ => true
  | _ => false

/-- Whitespace skipping of `JSON.parse` (space, tab, line feed, carriage
return). -/
def skipWs : List Nat → List Nat
  | [] => []
  | c :: r => if c = 32 ∨ c = 9 ∨ c = 10 ∨ c = 13 then skipWs r else c :: r

/-- Scan of a JSON string body up to the closing quote; escape sequences are
outside the modelled subset and are rejected. -/
def scanString : List Nat → Option (List Nat × List Nat)
  | [] => none
  | c :: r =>
    if c = 34 then some ([], r)
    else if c = 92 then none
    else
      match scanString r with
      | some (s, rest) => some (c :: s, rest)
      | none => none

/-- Scan of a maximal run of decimal digits. -/
def scanDigits : List Nat → (List Nat × List Nat)
  | [] => ([], [])
  | c :: r =>
    if 48 ≤ c ∧ c ≤ 57 then
      let (ds, rest) := scanDigits r
      (c :: ds, rest)
    else ([], c :: r)

/-- Numeric value of a run of decimal digits. -/
def digitsToNat (ds : List Nat) : Nat := ds.foldl (fun acc d => acc * 10 + (d - 48)) 0

mutual

/-- Model of `JSON.parse` on the grammar the envelope protocol exchanges:
objects with string keys, arrays, strings without escape sequences, integers,
`true`, `false` and `null`; any other input raises a `SyntaxError`, as
`JSON.parse` does on malformed text. The fuel argument strictly dominates
the input length, so it never runs out on a parse that would succeed. -/
def parseValue : Nat → List Nat → Except JsError (JsValue × List Nat)
  | 0, _ => .error .syntaxError
  | fuel + 1, s =>
    match skipWs s with
    | [] => .error .syntaxError
    | c :: r =>
      if c = 34 then
        match scanString r with
        | some (str, rest) => .ok (.str str, rest)
        | none => .error .syntaxError
      else if c = 123 then
        match skipWs r with
        | 125 :: rest => .ok (.obj [], rest)
        | other =>
          match parseMembers fuel other with
          | .ok (fields, rest) => .ok (.obj fields, rest)
          | .error e => .error e
      else if c = 91 then
        match skipWs r with
        | 93 :: rest => .ok (.arr [], rest)
        | other =>
          match parseElems fuel other with
          | .ok (vs, rest) => .ok (.arr vs, rest)
          | .error e => .error e
      else if c = 116 then
        if [114, 117, 101].isPrefixOf r then .ok (.bool true, r.drop 3)
        else .error .syntaxError
      else if c = 102 then
        if [97, 108, 115, 101].isPrefixOf r then .ok (.bool false, r.drop 4)
        else .error .syntaxError
      else if c = 110 then
        if [117, 108, 108].isPrefixOf r then .ok (.nullv, r.drop 3)
        else .error .syntaxError
      else if c = 45 then
        match scanDigits r with
        | ([], _) => .error .syntaxError
        | (ds, rest) => .ok (.num (-(digitsToNat ds : Int)), rest)
      else if 48 ≤ c ∧ c ≤ 57 then
        let (ds, rest) := scanDigits r
        .ok (.num (digitsToNat (c :: ds)), rest)
      else .error .syntaxError

/-- Members of a JSON object after the opening brace (at least one member;
the empty object is handled by the caller). -/
def parseMembers : Nat → List Nat → Except JsError (List (List Nat × JsValue) × List Nat)
  | 0, _ => .error .syntaxError
  | fuel + 1, s =>
    match skipWs s with
    | 34 :: r =>
      match scanString r with
      | some (key, rest) =>
        match skipWs rest with
        | 58 :: rest2 =>
          match parseValue fuel rest2 with
          | .ok (v, rest3) =>
            match skipWs rest3 with
            | 44 :: rest4 =>
              match parseMembers fuel rest4 with
              | .ok (fields, rest5) => .ok ((key, v) :: fields, rest5)
              | .error e => .error e
            | 125 :: rest4 => .ok ([(key, v)], rest4)
            | _ => .error .syntaxError
          | .error e => .error e
        | _ => .error .syntaxError
      | none => .error .syntaxError
    | _ => .error .syntaxError

/-- Elements of a JSON array after the opening bracket (at least one element;
the empty array is handled by the caller). -/
def parseElems : Nat → List Nat → Except JsError (List JsValue × List Nat)
  | 0, _ => .error .syntaxError
  | fuel + 1, s =>
    match parseValue fuel s with
    | .ok (v, rest) =>
      match skipWs rest with
      | 44 :: rest2 =>
        match parseElems fuel rest2 with
        | .ok (vs, rest3) => .ok (v :: vs, rest3)
        | .error e => .error e
      | 93 :: rest2 => .ok ([v], rest2)
      | _ => .error .syntaxError
    | .error e => .error e

end

/-- Entry point of the `JSON.parse` model: parse one value and require only
whitespace to remain. -/
def jsonParse (bytes : List Nat) : Except JsError JsValue :=
  match parseValue (bytes.length + 1) bytes with
  | .ok (v, rest) => if skipWs rest = [] then .ok v else .error .syntaxError
  | .error e => .error e

/-- The `while` loop of `CreamSocketParser.decode` over the accumulation
buffer. The extended-length branches call `readUInt16BE`/`readBigUInt64BE`
on `this.buffer`, which is a plain `Uint8Array` without those `Buffer`
methods, so JavaScript raises a `TypeError` there; `this.buffer[1]` past the
end is `undefined`, and `undefined & 0x7F` is `0`, matching `getD`'s
default. A frame with an unhandled opcode is consumed and the loop
continues; the loop is written with explicit fuel so the definition stays
structurally recursive. -/
def parserLoopF : Nat → List Nat → Except JsError (Option JsValue × List Nat)
  | 0, buf => .ok (none, buf)
  | fuel + 1, buf =>
    if buf = [] then .ok (none, buf)
    else
      let frameHeader := buf.getD 0 0
      let opcode := frameHeader &&& 0x0f
      let payloadLength := buf.getD 1 0 &&& 0x7f
      if payloadLength = 126 then .error .typeError
      else if payloadLength = 127 then .error .typeError
      else
        if buf.length < 2 + payloadLength then .ok (none, buf)
        else
          let payload := jsSlice buf 2 (2 + payloadLength)
          let rest := buf.drop (2 + payloadLength)
          if opcode = 1 then
            match jsonParse payload with
            | .ok v => .ok (some v, rest)
            | .error e => .error e
          else if opcode = 2 then .ok (some (.bytes payload), rest)
          else parserLoopF fuel rest

/-- Entry to the loop: every iteration that continues consumes at least two
buffer bytes, so fuel equal to the buffer length never runs out. -/
def parserLoop (buf : List Nat) : Except JsError (Option JsValue × List Nat) :=
  parserLoopF buf.length buf

/-- Embedding of `CreamSocketParser.decode`: a non-`Uint8Array` argument is
rejected up front (`null`, accumulation buffer untouched); otherwise the
bytes are appended to the accumulation buffer and the frame loop runs,
returning the decoded value (or `null`) together with the new buffer. -/
def parserDecode (buffer : List Nat) (data : JsValue) :
    Except JsError (Option JsValue × List Nat) :=
  match data with
  | .bytes bs => parserLoop (buffer ++ bs)
  | _ => .ok (none, buffer)

/-- Events `_handleFrame` can publish to subscribers. -/
inductive ServerEvent
  | message (payload : Option JsValue)
  | notification (payload : Option JsValue)

/-- Observable effects of `CreamSocketServer._handleFrame` on one socket
data event: events emitted, frames written back, whether the socket was
ended, and the parser buffer afterwards. -/
structure HandleResult where
  events : List ServerEvent
  writes : List (List Nat)
  ended : Bool
  parserBuffer : List Nat

/-- Bytes written by `_sendPong`. Its argument is the JavaScript string
`frame.payload` (code points); `parser.encode` runs
`new TextEncoder().encode(String(data))`, so the inner frame's payload is
the UTF-8 re-encoding of that string, and the result is wrapped in an outer
`0xA` frame by `_encodeFrame`. -/
def sendPongFrame (payload : List Nat) : List Nat :=
  encodeFrame (parserEncode (utf8Encode payload) 0x1) 0xA

/-- Embedding of `CreamSocketServer._handleFrame` (the revision that uses
`CreamSocketParser`). `frame.payload` is the JavaScript string
`_decodeFrame` produced, so both envelope branches hand `parser.decode` a
string — the `0x1` branch via `frame.payload.toString('utf8')` and the
`0x2` branch via `frame.payload` itself. -/
def handleFrame (parserBuffer : List Nat) (data : List Nat) :
    Except JsError HandleResult :=
  match decodeFrame data with
  | .error e => .error e
  | .ok frame =>
    if frame.opcode = 0x1 then
      match parserDecode parserBuffer (.str frame.payload) with
      | .error e => .error e
      | .ok (decoded, buf) =>
        .ok { events := [.message decoded], writes := [], ended := false, parserBuffer := buf }
    else if frame.opcode = 0x2 then
      match parserDecode parserBuffer (.str frame.payload) with
      | .error e => .error e
      | .ok (decoded, buf) =>
        .ok { events := [.notification decoded], writes := [], ended := false, parserBuffer := buf }
    else if frame.opcode = 0x8 then
      .ok { events := [], writes := [], ended := true, parserBuffer := parserBuffer }
    else if frame.opcode = 0x9 then
      .ok { events := [], writes := [sendPongFrame frame.payload], ended := false, parserBuffer := parserBuffer }
    else
      .ok { events := [], writes := [], ended := false, parserBuffer := parserBuffer }

/-- JSON text `JSON.stringify` produces for the envelope object
`\x7btype:'message', payload: m\x7d` that `CreamSocketParser.sendMessage`
builds, for a payload string `m` containing no characters that need
escaping. -/
def envelopeMessageJson (m : List Nat) : List Nat :=
  ascii "\x7b\"type\":\"message\",\"payload\":\"" ++ m ++ ascii "\"\x7d"

/-- Frame written by `CreamSocketParser.sendMessage`: the reference
message-Envelope/Frame encoding of a payload. -/
def sendMessageFrame (m : List Nat) : List Nat :=
  parserEncode (envelopeMessageJson m) 0x1

/-- Bytes `CreamSocketServer.broadcast` computes once and writes to every
client: `parser.encode(message)` (an inner frame) wrapped in an outer frame
by `_encodeFrame` with its default opcode `0x1`. -/
def broadcastFrame (message : List Nat) : List Nat :=
  encodeFrame (parserEncode message 0x1) 0x1

/-- Embedding of `CreamSocketServer.broadcast` over an abstract client
registry: the frame is computed once and the loop writes it to each
registered client in order. -/
def broadcastWrites {α : Type} (clients : List α) (message : List Nat) :
    List (α × List Nat) :=
  let frame := broadcastFrame message
  clients.map (fun c => (c, frame))

/-- Field access on a JavaScript object value. -/
def getField : JsValue → List Nat → Option JsValue
  | .obj fields, k => (fields.find? (fun p => p.1 == k)).map (fun p => p.2)
  | _, _ => none

/-- JavaScript truthiness of the values an envelope field can hold. -/
def jsTruthy : Option JsValue → Bool
  | none => false
  | some .nullv => false
  | some (.bool b) => b
  | some (.num n) => n != 0
  | some (.str s) => s != []
  | some (.bytes _) => true
  | some (.obj _) => true
  | some (.arr _) => true

/-- JSON text of the acknowledgment object `handleNotification` writes
back. -/
def ackJson : List Nat :=
  ascii "\x7b\"type\":\"ack\",\"message\":\"Notification received successfully\"\x7d"

/-- Embedding of `CreamSocketParser.handleNotification`: a missing or falsy
`payload` yields `null`; a truthy `responseRequired` writes one `ack` frame
(`this.encode(acknowledgment)`, default opcode `0x1`) before the payload is
returned. The server revision under verification never invokes this method:
`_handleFrame` publishes the result of `parser.decode` directly. -/
def handleNotification (n : JsValue) : Option JsValue × List (List Nat) :=
  if jsTruthy (getField n (ascii "payload")) = false then (none, [])
  else
    ((getField n (ascii "payload")),
      if jsTruthy (getField n (ascii "responseRequired")) then [parserEncode ackJson 0x1]
      else [])

/-- Model of JavaScript `String.prototype.split` with a non-empty separator
(given as head and tail): splits on every occurrence, keeping empty
pieces. -/
def splitListF (sepHead : Nat) (sepTail : List Nat) : Nat → List Nat → List (List Nat)
  | _, [] => [[]]
  | 0, s => [s]
  | fuel + 1, c :: rest =>
    if (sepHead :: sepTail).isPrefixOf (c :: rest) then
      [] :: splitListF sepHead sepTail fuel (rest.drop sepTail.length)
    else
      match splitListF sepHead sepTail fuel rest with
      | p :: ps => (c :: p) :: ps
      | [] => [[c]]

/-- Entry to the splitter: every step consumes at least one element, so fuel
equal to the input length never runs out. -/
def splitList (sepHead : Nat) (sepTail : List Nat) (s : List Nat) : List (List Nat) :=
  splitListF sepHead sepTail s.length s

/-- ASCII lower-casing, the behaviour of `key.toLowerCase()` on the ASCII
header keys this protocol sees. -/
def asciiToLower (s : List Nat) : List Nat :=
  s.map (fun c => if 65 ≤ c ∧ c ≤ 90 then c + 32 else c)

/-- Assignment `headers[key] = value` on a JavaScript object modelled as an
association list: an existing binding is overwritten, otherwise the pair is
appended. -/
def setHeader (hs : List (List Nat × List Nat)) (k v : List Nat) :
    List (List Nat × List Nat) :=
  if hs.any (fun p => p.1 == k) then hs.map (fun p => if p.1 == k then (k, v) else p)
  else hs ++ [(k, v)]

/-- Lookup `headers[key]`; `none` models `undefined`. -/
def getHeader (hs : List (List Nat × List Nat)) (k : List Nat) : Option (List Nat) :=
  (hs.find? (fun p => p.1 == k)).map (fun p => p.2)

/-- Embedding of `_parseHeaders`: split the request on CRLF, split each line
on `": "`, use the first two pieces when both are non-empty (JavaScript
string truthiness), lower-casing the key. -/
def parseHeaders (request : List Nat) : List (List Nat × List Nat) :=
  (splitList 13 [10] request).foldl
    (fun headers line =>
      match splitList 58 [32] line with
      | key :: value :: _ =>
        if key ≠ [] ∧ value ≠ [] then setHeader headers (asciiToLower key) value
        else headers
      | _ => headers)
    []

/-- 32-bit left rotation on naturals below `2 ^ 32`. -/
def rotl32 (x n : Nat) : Nat := ((x <<< n) % 2 ^ 32) ||| (x >>> (32 - n))

/-- Big-endian bytes of a 64-bit value (the bit-length field of the SHA-1
padding). -/
def be64 (n : Nat) : List Nat := (List.range 8).map (fun i => n / 2 ^ ((7 - i) * 8) % 256)

/-- SHA-1 message padding: one `0x80` byte, zeros up to 56 modulo 64, then
the message bit length as a big-endian 64-bit integer. -/
def sha1Pad (msg : List Nat) : List Nat :=
  msg ++ 0x80 :: List.replicate ((119 - msg.length % 64) % 64) 0 ++ be64 (msg.length * 8)

/-- Splits a byte list into its 64-byte blocks. -/
def toBlocks (l : List Nat) : List (List Nat) :=
  (List.range ((l.length + 63) / 64)).map (fun i => (l.drop (64 * i)).take 64)

/-- First sixteen 32-bit words of a block (big-endian). -/
def blockWords (block : List Nat) : List Nat :=
  (List.range 16).map (fun j =>
    block.getD (4 * j) 0 * 2 ^ 24 + block.getD (4 * j + 1) 0 * 2 ^ 16 +
      block.getD (4 * j + 2) 0 * 2 ^ 8 + block.getD (4 * j + 3) 0)

/-- Message-schedule expansion of SHA-1, appending one word per step. -/
def sha1Expand (w : List Nat) : Nat → List Nat
  | 0 => w
  | fuel + 1 =>
    sha1Expand (w ++ [rotl32 (w.getD (w.length - 3) 0 ^^^ w.getD (w.length - 8) 0 ^^^
      w.getD (w.length - 14) 0 ^^^ w.getD (w.length - 16) 0) 1]) fuel

/-- Round function of SHA-1 (bitwise complement written as xor with the
32-bit all-ones mask). -/
def sha1F (t b c d : Nat) : Nat :=
  if t < 20 then (b &&& c) ||| ((b ^^^ 0xffffffff) &&& d)
  else if t < 40 then b ^^^ c ^^^ d
  else if t < 60 then (b &&& c) ||| (b &&& d) ||| (c &&& d)
  else b ^^^ c ^^^ d

/-- Round constants of SHA-1. -/
def sha1K (t : Nat) : Nat :=
  if t < 20 then 0x5A827999
  else if t < 40 then 0x6ED9EBA1
  else if t < 60 then 0x8F1BBCDC
  else 0xCA62C1D6

/-- One SHA-1 compression step. -/
def sha1Step (w : List Nat) (st : Nat × Nat × Nat × Nat × Nat) (t : Nat) :
    Nat × Nat × Nat × Nat × Nat :=
  match st with
  | (a, b, c, d, e) =>
    ((rotl32 a 5 + sha1F t b c d + e + sha1K t + w.getD t 0) % 2 ^ 32,
      a, rotl32 b 30, c, d)

/-- Processing of one 64-byte block. -/
def sha1Block (h : Nat × Nat × Nat × Nat × Nat) (block : List Nat) :
    Nat × Nat × Nat × Nat × Nat :=
  let w := sha1Expand (blockWords block) 64
  match (List.range 80).foldl (sha1Step w) h with
  | (a, b, c, d, e) =>
    ((h.1 + a) % 2 ^ 32, (h.2.1 + b) % 2 ^ 32, (h.2.2.1 + c) % 2 ^ 32,
      (h.2.2.2.1 + d) % 2 ^ 32, (h.2.2.2.2 + e) % 2 ^ 32)

/-- Model of SHA-1 (RFC 3174), the hash that `crypto.createHash('sha1')`
computes; returns the twenty digest bytes. -/
def sha1 (msg : List Nat) : List Nat :=
  match (toBlocks (sha1Pad msg)).foldl sha1Block
      (0x67452301, 0xEFCDAB89, 0x98BADCFE, 0x10325476, 0xC3D2E1F0) with
  | (h0, h1, h2, h3, h4) =>
    ([h0, h1, h2, h3, h4].map
      (fun h => [h / 2 ^ 24 % 256, h / 2 ^ 16 % 256, h / 2 ^ 8 % 256, h % 256])).flatten

/-- Base64 alphabet (RFC 4648) at an index below 64. -/
def base64Char (n : Nat) : Nat :=
  (ascii "ABCDEFGHIJKLMNOPQRSTUVWXYZabcdefghijklmnopqrstuvwxyz0123456789+/").getD n 65

/-- Model of `digest('base64')`: groups of three bytes become four alphabet
characters, with `=` padding for a final group of one or two bytes. -/
def base64 : List Nat → List Nat
  | [] => []
  | [a] =>
    [base64Char (a * 65536 / 2 ^ 18 % 64), base64Char (a * 65536 / 2 ^ 12 % 64), 61, 61]
  | [a, b] =>
    [base64Char ((a * 65536 + b * 256) / 2 ^ 18 % 64),
      base64Char ((a * 65536 + b * 256) / 2 ^ 12 % 64),
      base64Char ((a * 65536 + b * 256) / 2 ^ 6 % 64), 61]
  | a :: b :: c :: rest =>
    base64Char ((a * 65536 + b * 256 + c) / 2 ^ 18 % 64) ::
      base64Char ((a * 65536 + b * 256 + c) / 2 ^ 12 % 64) ::
        base64Char ((a * 65536 + b * 256 + c) / 2 ^ 6 % 64) ::
          base64Char ((a * 65536 + b * 256 + c) % 64) :: base64 rest

/-- The fixed GUID `_generateAcceptValue` appends to the client key. -/
def guid : List Nat := ascii "258EAFA5-E914-47DA-95CA-C5AB0DC85B11"

/-- Embedding of `_generateAcceptValue`: SHA-1 of `key + GUID`,
base64-encoded. The argument is `headers['sec-websocket-key']`; when that
header is absent the lookup yields `undefined`, which JavaScript string
concatenation coerces to the text `"undefined"`. -/
def generateAcceptValue (key : Option (List Nat)) : List Nat :=
  base64 (sha1 ((match key with | some k => k | none => ascii "undefined") ++ guid))

/-- Response text `_performHandshake` writes: the five response strings
joined by CRLF (the last entry is itself a CRLF, producing the blank line
that terminates the header block). -/
def handshakeResponse (accept : List Nat) : List Nat :=
  List.intercalate (ascii "\r\n")
    [ascii "HTTP/1.1 101 Switching Protocols", ascii "Upgrade: websocket",
      ascii "Connection: Upgrade", ascii "Sec-WebSocket-Accept: " ++ accept,
      ascii "\r\n"]

/-- Outcome of `_handleConnection` on the first data chunk: either the
socket is destroyed, or a handshake response is written and the socket is
registered in `this.clients` with the `connection` event emitted. -/
inductive ConnOutcome
  | destroyed
  | opened (response : List Nat) (registered : Bool)

/-- Embedding of `_performHandshake`: parse the headers, compute the accept
token (without any check that the key header exists), write the 101
response, and register the client. -/
def performHandshake (request : List Nat) : ConnOutcome :=
  .opened
    (handshakeResponse
      (generateAcceptValue (getHeader (parseHeaders request) (ascii "sec-websocket-key"))))
    true

/-- Containment of one list in another, the model of JavaScript
`String.prototype.includes`. -/
def containsSub (pat : List Nat) : List Nat → Bool
  | [] => pat.isPrefixOf []
  | c :: rest => pat.isPrefixOf (c :: rest) || containsSub pat rest

/-- Embedding of `_isWebSocketRequest`:
`request.includes('Upgrade: websocket')`. -/
def isWebSocketRequest (request : List Nat) : Bool :=
  containsSub (ascii "Upgrade: websocket") request

/-- Embedding of `_handleConnection`'s first-chunk handler: a chunk that
passes `_isWebSocketRequest` reaches `_performHandshake`; any other chunk
destroys the socket. -/
def handleConnection (request : List Nat) : ConnOutcome :=
  if isWebSocketRequest request then performHandshake request else .destroyed

/-- Well-formed wire encoding of a payload length: the length field `L` of
the second frame byte together with the extended-length bytes `ext` declare
the value `n`, in one of the three formats of the frame wire format. -/
def lengthEncodes (L : Nat) (ext : List Nat) (n : Nat) : Prop :=
  (L = n ∧ n < 126 ∧ ext = []) ∨
    (L = 126 ∧ ∃ hi lo, ext = [hi, lo] ∧ hi * 256 + lo = n) ∨
    (L = 127 ∧ ∃ e0 e1 e2 e3 e4 e5 e6 e7, ext = [e0, e1, e2, e3, e4, e5, e6, e7] ∧
      e0 * 2 ^ 56 + e1 * 2 ^ 48 + e2 * 2 ^ 40 + e3 * 2 ^ 32 + e4 * 2 ^ 24 + e5 * 2 ^ 16 +
        e6 * 2 ^ 8 + e7 = n)

/-! Helper lemmas: JavaScript bit arithmetic over `Nat`. -/

theorem and127_eq_mod (n : Nat) : n &&& 127 = n % 128 := by
  simpa using Nat.and_pow_two_sub_one_eq_mod n 7

theorem and15_eq_mod (n : Nat) : n &&& 15 = n % 16 := by
  simpa using Nat.and_pow_two_sub_one_eq_mod n 4

theorem testBit7_of_lt {L : Nat} (h : L < 128) : L.testBit 7 = false := by
  simp [Nat.testBit, Nat.shiftRight_eq_div_pow]
  omega

theorem testBit7_add {L : Nat} (h : L < 128) : (128 + L).testBit 7 = true := by
  simp [Nat.testBit, Nat.shiftRight_eq_div_pow]
  omega

theorem maskBit_zero {L : Nat} (h : L < 128) : (L &&& 128) >>> 7 = 0 := by
  rw [show (128 : Nat) = 2 ^ 7 from rfl, Nat.and_two_pow, testBit7_of_lt h]
  rfl

theorem maskBit_one {L : Nat} (h : L < 128) : ((128 + L) &&& 128) >>> 7 = 1 := by
  nth_rewrite 2 [show (128 : Nat) = 2 ^ 7 from rfl]
  rw [Nat.and_two_pow, testBit7_add h]
  rfl

theorem lor128_eq_add {o : Nat} (h : o < 128) : 128 ||| o = 128 + o := by
  apply Nat.eq_of_testBit_eq
  intro i
  rw [Nat.testBit_lor]
  rcases Nat.lt_trichotomy i 7 with hi | hi | hi
  · rw [show (128 : Nat) = 2 ^ 7 from rfl]
    rw [Nat.testBit_two_pow_add_gt hi, Nat.testBit_two_pow_of_ne (by omega)]
    simp
  · subst hi
    rw [show (128 : Nat) = 2 ^ 7 from rfl]
    rw [Nat.testBit_two_pow_add_eq, Nat.testBit_two_pow_self,
      testBit7_of_lt h]
    rfl
  · have h1 : (256 : Nat) ≤ 2 ^ i := by
      calc (256 : Nat) = 2 ^ 8 := rfl
      _ ≤ 2 ^ i := Nat.pow_le_pow_right (by omega) (by omega)
    rw [Nat.testBit_lt_two_pow (by omega), Nat.testBit_lt_two_pow (by omega),
      Nat.testBit_lt_two_pow (by omega)]
    rfl

theorem encodeHeader_first (len o : Nat) (h : o < 128) :
    encodeHeader len o = (128 + o) ::
      (if len < 126 then [len]
       else if len < 65536 then [126, jsShiftByte len 8, jsShiftByte len 0]
       else 127 :: (List.range 8).map (fun i => jsShiftByte len ((7 - i) * 8))) := by
  rw [encodeHeader, lor128_eq_add h]

/-! Helper lemmas: slices of structured buffers and the length field. -/

theorem jsSlice_mid (pre mid post : List Nat) :
    jsSlice (pre ++ (mid ++ post)) pre.length (pre.length + mid.length) = mid := by
  rw [jsSlice, show pre ++ (mid ++ post) = (pre ++ mid) ++ post by simp,
    List.take_left' (by simp), List.drop_left]

theorem jsSlice_rest (pre rest : List Nat) (e : Nat) (he : pre.length + rest.length ≤ e) :
    jsSlice (pre ++ rest) pre.length e = rest := by
  rw [jsSlice, List.take_of_length_le (by simp; omega), List.drop_left]

theorem readLength_direct (buffer : List Nat) (s : Nat) (h : s &&& 127 ≠ 126)
    (h2 : s &&& 127 ≠ 127) : readLength buffer s = .ok (s &&& 127, 2) := by
  rw [readLength]
  simp only [if_neg h, if_neg h2]

theorem readLength_ext16 (buffer : List Nat) (s : Nat) (h : s &&& 127 = 126)
    (hb : 2 + 2 ≤ buffer.length) :
    readLength buffer s = .ok (buffer.getD 2 0 * 256 + buffer.getD 3 0, 4) := by
  rw [readLength]
  simp only [h, if_pos, readUInt16BE, if_pos hb]

theorem readLength_ext64 (buffer : List Nat) (s : Nat) (h : s &&& 127 = 127)
    (hb : 2 + 8 ≤ buffer.length) :
    readLength buffer s = .ok (buffer.getD 2 0 * 2 ^ 56 + buffer.getD 3 0 * 2 ^ 48 +
      buffer.getD 4 0 * 2 ^ 40 + buffer.getD 5 0 * 2 ^ 32 + buffer.getD 6 0 * 2 ^ 24 +
      buffer.getD 7 0 * 2 ^ 16 + buffer.getD 8 0 * 2 ^ 8 + buffer.getD 9 0, 10) := by
  rw [readLength]
  simp only [h, if_pos, if_neg (by omega : (127 : Nat) ≠ 126), readBigUInt64BE, if_pos hb]

theorem jsSlice_cons2 (a b : Nat) (p : List Nat) :
    jsSlice (a :: b :: p) 2 (2 + p.length) = p := by
  simpa using jsSlice_mid [a, b] p []

theorem jsSlice_cons4 (a b c d : Nat) (p : List Nat) :
    jsSlice (a :: b :: c :: d :: p) 4 (4 + p.length) = p := by
  simpa using jsSlice_mid [a, b, c, d] p []

theorem jsSlice_cons10 (a b c0 c1 c2 c3 c4 c5 c6 c7 : Nat) (p : List Nat) (e : Nat)
    (he : 10 + p.length ≤ e) :
    jsSlice (a :: b :: c0 :: c1 :: c2 :: c3 :: c4 :: c5 :: c6 :: c7 :: p) 10 e = p :=
  jsSlice_rest [a, b, c0, c1, c2, c3, c4, c5, c6, c7] p e (by simpa using he)

/-- ASCII strings survive the UTF-8 decoding unchanged: on bytes below
`0x80`, `Buffer.toString('utf8')` is the identity on the underlying
naturals. -/
theorem utf8DecodeF_ascii (fuel : Nat) :
    ∀ p : List Nat, p.length ≤ fuel → (∀ b ∈ p, b < 128) → utf8DecodeF fuel p = p := by
  induction fuel with
  | zero =>
    intro p hp _
    cases p with
    | nil => rfl
    | cons b rest => simp at hp
  | succ f ih =>
    intro p hp h
    cases p with
    | nil => rfl
    | cons b rest =>
      have hb : b < 128 := h b (by simp)
      rw [utf8DecodeF.eq_def]
      dsimp only
      rw [if_pos hb, ih rest (by simp at hp; omega) (fun x hx => h x (by simp [hx]))]

theorem utf8Decode_ascii (p : List Nat) (h : ∀ b ∈ p, b < 128) : utf8Decode p = p :=
  utf8DecodeF_ascii p.length p le_rfl h

/-- Round-trip evaluation of `_decodeFrame` on `_encodeFrame`'s output: the
payload slice recovered before the final `toString()` is exactly the encoded
payload bytes, so the decoded frame carries the UTF-8 string decoding of the
payload and the original opcode (the clamped payload slice hides the garbled
64-bit length bytes, because the declared value never falls short of the
true length while the buffer ends with the payload). -/
theorem decode_encode (p : List Nat) (o : Nat) (ho : o < 16) (hp : p.length < 2 ^ 32) :
    decodeFrame (encodeFrame p o) = .ok { fin := 1, opcode := o, payload := utf8Decode p } := by
  have ho2 : o < 128 := by omega
  have hfin : ((128 + o) &&& 128) >>> 7 = 1 := maskBit_one ho2
  have hop : (128 + o) &&& 15 = o := by
    rw [and15_eq_mod]
    omega
  rw [encodeFrame, encodeHeader_first _ _ ho2]
  by_cases h1 : p.length < 126
  · rw [if_pos h1]
    have e1 : (128 + o) :: [p.length] ++ p = (128 + o) :: p.length :: p := by simp
    rw [e1, decodeFrame]
    rw [if_neg (by simp)]
    dsimp only
    have hg0 : ((128 + o) :: p.length :: p).getD 0 0 = 128 + o := rfl
    have hg1 : ((128 + o) :: p.length :: p).getD 1 0 = p.length := rfl
    rw [hg0, hg1]
    have hpl : p.length &&& 127 = p.length := by
      rw [and127_eq_mod]
      omega
    rw [readLength_direct _ _ (by omega) (by omega), hpl]
    dsimp only
    have hm : (p.length &&& 128) >>> 7 = 0 := maskBit_zero (by omega)
    rw [hm]
    simp only [if_neg (show ¬((0 : Nat) = 1) from by omega)]
    rw [jsSlice_cons2, hfin, hop]
  · rw [if_neg h1]
    by_cases h2 : p.length < 65536
    · rw [if_pos h2]
      have e1 : (128 + o) :: [126, jsShiftByte p.length 8, jsShiftByte p.length 0] ++ p =
          (128 + o) :: 126 :: jsShiftByte p.length 8 :: jsShiftByte p.length 0 :: p := by simp
      rw [e1, decodeFrame]
      rw [if_neg (by simp)]
      dsimp only
      have hg0 : ((128 + o) :: 126 :: jsShiftByte p.length 8 :: jsShiftByte p.length 0 :: p).getD
          0 0 = 128 + o := rfl
      have hg1 : ((128 + o) :: 126 :: jsShiftByte p.length 8 :: jsShiftByte p.length 0 :: p).getD
          1 0 = 126 := rfl
      rw [hg0, hg1]
      rw [readLength_ext16 _ _ (by decide) (by simp)]
      dsimp only
      have hg2 : ((128 + o) :: 126 :: jsShiftByte p.length 8 :: jsShiftByte p.length 0 :: p).getD
          2 0 = jsShiftByte p.length 8 := rfl
      have hg3 : ((128 + o) :: 126 :: jsShiftByte p.length 8 :: jsShiftByte p.length 0 :: p).getD
          3 0 = jsShiftByte p.length 0 := rfl
      rw [hg2, hg3]
      have hv : jsShiftByte p.length 8 * 256 + jsShiftByte p.length 0 = p.length := by
        simp only [jsShiftByte]
        norm_num
        omega
      rw [hv]
      have hm : ((126 : Nat) &&& 128) >>> 7 = 0 := by decide
      rw [hm]
      simp only [if_neg (show ¬((0 : Nat) = 1) from by omega)]
      rw [jsSlice_cons4, hfin, hop]
    · rw [if_neg h2]
      have e0 : (List.range 8).map (fun i => jsShiftByte p.length ((7 - i) * 8)) =
          [jsShiftByte p.length 56, jsShiftByte p.length 48, jsShiftByte p.length 40,
           jsShiftByte p.length 32, jsShiftByte p.length 24, jsShiftByte p.length 16,
           jsShiftByte p.length 8, jsShiftByte p.length 0] := rfl
      rw [e0]
      have e1 : (128 + o) :: (127 :: [jsShiftByte p.length 56, jsShiftByte p.length 48,
          jsShiftByte p.length 40, jsShiftByte p.length 32, jsShiftByte p.length 24,
          jsShiftByte p.length 16, jsShiftByte p.length 8, jsShiftByte p.length 0]) ++ p =
          (128 + o) :: 127 :: jsShiftByte p.length 56 :: jsShiftByte p.length 48 ::
          jsShiftByte p.length 40 :: jsShiftByte p.length 32 :: jsShiftByte p.length 24 ::
          jsShiftByte p.length 16 :: jsShiftByte p.length 8 :: jsShiftByte p.length 0 :: p := by
        simp
      rw [e1, decodeFrame]
      rw [if_neg (by simp)]
      dsimp only
      rw [show ((128 + o) :: 127 :: jsShiftByte p.length 56 :: jsShiftByte p.length 48 ::
          jsShiftByte p.length 40 :: jsShiftByte p.length 32 :: jsShiftByte p.length 24 ::
          jsShiftByte p.length 16 :: jsShiftByte p.length 8 :: jsShiftByte p.length 0 :: p).getD
          0 0 = 128 + o from rfl,
        show ((128 + o) :: 127 :: jsShiftByte p.length 56 :: jsShiftByte p.length 48 ::
          jsShiftByte p.length 40 :: jsShiftByte p.length 32 :: jsShiftByte p.length 24 ::
          jsShiftByte p.length 16 :: jsShiftByte p.length 8 :: jsShiftByte p.length 0 :: p).getD
          1 0 = 127 from rfl]
      rw [readLength_ext64 _ _ (by decide) (by simp)]
      dsimp only
      rw [show ((128 + o) :: 127 :: jsShiftByte p.length 56 :: jsShiftByte p.length 48 ::
          jsShiftByte p.length 40 :: jsShiftByte p.length 32 :: jsShiftByte p.length 24 ::
          jsShiftByte p.length 16 :: jsShiftByte p.length 8 :: jsShiftByte p.length 0 :: p).getD
          2 0 = jsShiftByte p.length 56 from rfl,
        show ((128 + o) :: 127 :: jsShiftByte p.length 56 :: jsShiftByte p.length 48 ::
          jsShiftByte p.length 40 :: jsShiftByte p.length 32 :: jsShiftByte p.length 24 ::
          jsShiftByte p.length 16 :: jsShiftByte p.length 8 :: jsShiftByte p.length 0 :: p).getD
          3 0 = jsShiftByte p.length 48 from rfl,
        show ((128 + o) :: 127 :: jsShiftByte p.length 56 :: jsShiftByte p.length 48 ::
          jsShiftByte p.length 40 :: jsShiftByte p.length 32 :: jsShiftByte p.length 24 ::
          jsShiftByte p.length 16 :: jsShiftByte p.length 8 :: jsShiftByte p.length 0 :: p).getD
          4 0 = jsShiftByte p.length 40 from rfl,
        show ((128 + o) :: 127 :: jsShiftByte p.length 56 :: jsShiftByte p.length 48 ::
          jsShiftByte p.length 40 :: jsShiftByte p.length 32 :: jsShiftByte p.length 24 ::
          jsShiftByte p.length 16 :: jsShiftByte p.length 8 :: jsShiftByte p.length 0 :: p).getD
          5 0 = jsShiftByte p.length 32 from rfl,
        show ((128 + o) :: 127 :: jsShiftByte p.length 56 :: jsShiftByte p.length 48 ::
          jsShiftByte p.length 40 :: jsShiftByte p.length 32 :: jsShiftByte p.length 24 ::
          jsShiftByte p.length 16 :: jsShiftByte p.length 8 :: jsShiftByte p.length 0 :: p).getD
          6 0 = jsShiftByte p.length 24 from rfl,
        show ((128 + o) :: 127 :: jsShiftByte p.length 56 :: jsShiftByte p.length 48 ::
          jsShiftByte p.length 40 :: jsShiftByte p.length 32 :: jsShiftByte p.length 24 ::
          jsShiftByte p.length 16 :: jsShiftByte p.length 8 :: jsShiftByte p.length 0 :: p).getD
          7 0 = jsShiftByte p.length 16 from rfl,
        show ((128 + o) :: 127 :: jsShiftByte p.length 56 :: jsShiftByte p.length 48 ::
          jsShiftByte p.length 40 :: jsShiftByte p.length 32 :: jsShiftByte p.length 24 ::
          jsShiftByte p.length 16 :: jsShiftByte p.length 8 :: jsShiftByte p.length 0 :: p).getD
          8 0 = jsShiftByte p.length 8 from rfl,
        show ((128 + o) :: 127 :: jsShiftByte p.length 56 :: jsShiftByte p.length 48 ::
          jsShiftByte p.length 40 :: jsShiftByte p.length 32 :: jsShiftByte p.length 24 ::
          jsShiftByte p.length 16 :: jsShiftByte p.length 8 :: jsShiftByte p.length 0 :: p).getD
          9 0 = jsShiftByte p.length 0 from rfl]
      have hm : ((127 : Nat) &&& 128) >>> 7 = 0 := by decide
      rw [hm]
      simp only [if_neg (show ¬((0 : Nat) = 1) from by omega)]
      have hV : 10 + p.length ≤ 10 + (jsShiftByte p.length 56 * 2 ^ 56 +
          jsShiftByte p.length 48 * 2 ^ 48 + jsShiftByte p.length 40 * 2 ^ 40 +
          jsShiftByte p.length 32 * 2 ^ 32 + jsShiftByte p.length 24 * 2 ^ 24 +
          jsShiftByte p.length 16 * 2 ^ 16 + jsShiftByte p.length 8 * 2 ^ 8 +
          jsShiftByte p.length 0) := by
        simp only [jsShiftByte]
        norm_num
        omega
      rw [jsSlice_cons10 _ _ _ _ _ _ _ _ _ _ _ _ hV, hfin, hop]

/-- C1 counterexample: the byte-level round trip fails on the non-UTF-8
payload `[0xFF]` — `_decodeFrame` runs `decodedPayload.toString()`, which
turns the byte `0xFF` into the replacement character U+FFFD, so the decoded
payload is not `[0xFF]`. -/
theorem frame_roundtrip_counter :
    decodeFrame (encodeFrame [0xFF] 0x1) =
      .ok { fin := 1, opcode := 1, payload := [0xFFFD] } ∧
      ([0xFFFD] : List Nat) ≠ [0xFF] :=
  ⟨rfl, by decide⟩

/-- C1 amended: for every payload byte sequence `p` (within the `2 ^ 32`
bound a Node buffer can hold) and 4-bit opcode `o`, decoding the frame
produced by `_encodeFrame` yields a frame whose opcode equals `o` and whose
payload is the UTF-8 string decoding (`toString()`) of `p`; the payload
equals `p` itself whenever `p` is ASCII. -/
theorem frame_roundtrip (p : List Nat) (o : Nat) (ho : o < 16) (hp : p.length < 2 ^ 32) :
    ∃ fr, decodeFrame (encodeFrame p o) = .ok fr ∧ fr.payload = utf8Decode p ∧
      fr.opcode = o ∧ ((∀ b ∈ p, b < 128) → fr.payload = p) :=
  ⟨{ fin := 1, opcode := o, payload := utf8Decode p }, decode_encode p o ho hp, rfl, rfl,
    fun h => utf8Decode_ascii p h⟩

/-- Witness for the amended C1 at the concrete payload `[104, 105]` and
opcode `3`. -/
theorem frame_roundtrip_witness :
    (3 : Nat) < 16 ∧ ([104, 105] : List Nat).length < 2 ^ 32 ∧
      ∃ fr, decodeFrame (encodeFrame [104, 105] 3) = .ok fr ∧
        fr.payload = utf8Decode [104, 105] ∧ fr.opcode = 3 ∧
        ((∀ b ∈ ([104, 105] : List Nat), b < 128) → fr.payload = [104, 105]) :=
  ⟨by decide, by decide, frame_roundtrip [104, 105] 3 (by decide) (by decide)⟩

/-- C2: the incremental-decode contract does not hold on the code. On a
one-byte buffer `_decodeFrame` throws `ERR_OUT_OF_RANGE` (it has no `null`
path at all); on a complete header declaring five payload bytes with none
present it returns a decoded frame with an empty payload instead of
signalling "need more data"; and `CreamSocketParser.decode` raises a
`TypeError` on any extended-length frame because `this.buffer` is a plain
`Uint8Array` without `readUInt16BE`. -/
theorem decode_partial_input_divergence :
    decodeFrame [0x81] = .error .rangeError ∧
      decodeFrame [0x81, 0x05] = .ok { fin := 1, opcode := 1, payload := [] } ∧
      parserDecode [] (.bytes [0x81, 126]) = .error .typeError :=
  ⟨rfl, rfl, rfl⟩

/-- C3: the five boundary payload lengths select the documented branches,
and the 1-byte and 2-byte length fields hold the exact value, but the 8-byte
branch does not hold the big-endian 64-bit value: for length 65536 the code
emits the low 32 bits twice (`[0, 1, 0, 0, 0, 1, 0, 0]`) because `>>`
truncates to 32 bits, where the big-endian encoding is
`[0, 0, 0, 0, 0, 1, 0, 0]`. -/
theorem length_encoding_divergence :
    encodeFrame (List.replicate 0 0) 1 = [0x81, 0] ∧
      (encodeFrame (List.replicate 125 0) 1).take 2 = [0x81, 125] ∧
      (encodeFrame (List.replicate 126 0) 1).take 4 = [0x81, 126, 0, 126] ∧
      (encodeFrame (List.replicate 65535 0) 1).take 4 = [0x81, 126, 255, 255] ∧
      (encodeFrame (List.replicate 65536 0) 1).take 10 =
        [0x81, 127, 0, 1, 0, 0, 0, 1, 0, 0] ∧
      beBytes 8 65536 = [0, 0, 0, 0, 0, 1, 0, 0] ∧
      ([0, 1, 0, 0, 0, 1, 0, 0] : List Nat) ≠ beBytes 8 65536 := by
  refine ⟨by decide, ?_, ?_, ?_, ?_, by decide, by decide⟩
  · rw [show encodeFrame (List.replicate 125 0) 1 =
        encodeHeader 125 1 ++ List.replicate 125 0 by rw [encodeFrame, List.length_replicate]]
    rw [show encodeHeader 125 1 = [0x81, 125] by decide]
    rfl
  · rw [show encodeFrame (List.replicate 126 0) 1 =
        encodeHeader 126 1 ++ List.replicate 126 0 by rw [encodeFrame, List.length_replicate]]
    rw [show encodeHeader 126 1 = [0x81, 126, 0, 126] by decide]
    rfl
  · rw [show encodeFrame (List.replicate 65535 0) 1 =
        encodeHeader 65535 1 ++ List.replicate 65535 0 by
          rw [encodeFrame, List.length_replicate]]
    rw [show encodeHeader 65535 1 = [0x81, 126, 255, 255] by decide]
    rfl
  · rw [show encodeFrame (List.replicate 65536 0) 1 =
        encodeHeader 65536 1 ++ List.replicate 65536 0 by
          rw [encodeFrame, List.length_replicate]]
    rw [show encodeHeader 65536 1 = [0x81, 127, 0, 1, 0, 0, 0, 1, 0, 0] by decide]
    rfl

/-- C4: envelope dispatch is broken in the code. A `0x1` frame whose payload
is the JSON text of a `message` envelope with payload `"hi"` makes
`_handleFrame` emit a `message` event carrying `null` — `parser.decode`
receives the frame payload as a string, fails its `Uint8Array` check and
returns `null` — and a `0x2` frame carrying a `notification` envelope with
`responseRequired: true` emits a `notification` event carrying `null` with
no ack frame written back (`handleNotification` is never invoked). -/
theorem envelope_dispatch_divergence :
    handleFrame [] (encodeFrame (ascii "\x7b\"type\":\"message\",\"payload\":\"hi\"\x7d") 0x1) =
      .ok { events := [.message none], writes := [], ended := false, parserBuffer := [] } ∧
      handleFrame []
          (encodeFrame
            (ascii "\x7b\"type\":\"notification\",\"payload\":\"x\",\"responseRequired\":true\x7d")
            0x2) =
        .ok { events := [.notification none], writes := [], ended := false, parserBuffer := [] } :=
  ⟨rfl, rfl⟩

set_option maxRecDepth 20000 in
/-- C5: handshake accept token — `_generateAcceptValue` computes the base64
encoding of the SHA-1 digest of the key concatenated with the protocol GUID,
and on the RFC 6455 sample key `"dGhlIHNhbXBsZSBub25jZQ=="` it yields
`"s3pPLMBiTxaQ9kYGzzhZRbK+xOo="`. -/
theorem accept_token_correct :
    (∀ k, generateAcceptValue (some k) = base64 (sha1 (k ++ guid))) ∧
      generateAcceptValue (some (ascii "dGhlIHNhbXBsZSBub25jZQ==")) =
        ascii "s3pPLMBiTxaQ9kYGzzhZRbK+xOo=" :=
  ⟨fun _ => rfl, by decide⟩

/-- C6 counterexample: a first chunk containing `Upgrade: websocket` whose
parsed headers lack `sec-websocket-key` does not terminate the connection —
`_performHandshake` runs anyway, registers the socket and writes a 101
response whose accept token is computed from the coerced string
`"undefined"`. -/
theorem handshake_missing_key_counter :
    getHeader
        (parseHeaders
          (ascii "GET / HTTP/1.1\r\nHost: example.com\r\nUpgrade: websocket\r\nConnection: Upgrade\r\n\r\n"))
        (ascii "sec-websocket-key") = none ∧
      handleConnection
          (ascii "GET / HTTP/1.1\r\nHost: example.com\r\nUpgrade: websocket\r\nConnection: Upgrade\r\n\r\n") =
        .opened (handshakeResponse (generateAcceptValue none)) true ∧
      (handshakeResponse (generateAcceptValue none)).take 12 = ascii "HTTP/1.1 101" :=
  ⟨rfl, rfl, rfl⟩

/-- C6 amended: for every first chunk that passes `_isWebSocketRequest` but
whose parsed headers lack `sec-websocket-key`, the handshake still succeeds:
the socket is registered and the 101 response carries the accept token
derived from the string `"undefined"` concatenated with the GUID. -/
theorem handshake_missing_key (request : List Nat)
    (hu : isWebSocketRequest request = true)
    (hk : getHeader (parseHeaders request) (ascii "sec-websocket-key") = none) :
    handleConnection request =
      .opened (handshakeResponse (generateAcceptValue none)) true := by
  rw [handleConnection, if_pos hu, performHandshake, hk]

/-- Witness for the amended C6 at a concrete header block without the key
header. -/
theorem handshake_missing_key_witness :
    isWebSocketRequest
        (ascii "GET / HTTP/1.1\r\nHost: example.com\r\nUpgrade: websocket\r\nConnection: Upgrade\r\n\r\n") =
        true ∧
      getHeader
          (parseHeaders
            (ascii "GET / HTTP/1.1\r\nHost: example.com\r\nUpgrade: websocket\r\nConnection: Upgrade\r\n\r\n"))
          (ascii "sec-websocket-key") = none ∧
      handleConnection
          (ascii "GET / HTTP/1.1\r\nHost: example.com\r\nUpgrade: websocket\r\nConnection: Upgrade\r\n\r\n") =
        .opened (handshakeResponse (generateAcceptValue none)) true :=
  ⟨rfl, rfl, handshake_missing_key _ rfl rfl⟩

/-- C8 counterexample: on the ping frame carrying payload `[104, 105]`
(`"hi"`), the frame written back has opcode `0xA` but carries the
parser-encoded inner frame `[0x81, 2, 104, 105]` as its payload bytes, not
the ping payload itself — the written bytes differ from the claimed echo
frame `encodeFrame [104, 105] 0xA`, and decoding the written frame yields
the `toString()` of those inner-frame bytes, not `"hi"`. -/
theorem pong_echo_counter :
    handleFrame [] (encodeFrame [104, 105] 0x9) =
      .ok { events := [], writes := [[0x8A, 4, 0x81, 2, 104, 105]], ended := false, parserBuffer := [] } ∧
      decodeFrame [0x8A, 4, 0x81, 2, 104, 105] =
        .ok { fin := 1, opcode := 0xA, payload := [0xFFFD, 2, 104, 105] } ∧
      [[0x8A, 4, 0x81, 2, 104, 105]] ≠ [encodeFrame [104, 105] 0xA] :=
  ⟨rfl, rfl, by decide⟩

/-- C8 amended: for every ping frame (opcode `0x9`) carrying payload bytes
`P`, `_handleFrame` writes back exactly one frame with opcode `0xA` whose
payload is `parser.encode(frame.payload)` — the UTF-8 re-encoding of the
lossily `toString()`-decoded ping payload, wrapped in an inner parser frame
— rather than `P` itself; for ASCII `P` the inner payload's bytes coincide
with `P`. -/
theorem pong_double_framed (buf P : List Nat) (hp : P.length < 2 ^ 32) :
    handleFrame buf (encodeFrame P 0x9) =
      .ok { events := [], writes := [encodeFrame (parserEncode (utf8Encode (utf8Decode P)) 0x1) 0xA], ended := false, parserBuffer := buf } := by
  rw [handleFrame, decode_encode P 0x9 (by omega) hp]
  dsimp only
  norm_num [sendPongFrame]

/-- Witness for the amended C8 at the concrete ping payload `[104, 105]`. -/
theorem pong_double_framed_witness :
    ([104, 105] : List Nat).length < 2 ^ 32 ∧
      handleFrame [] (encodeFrame [104, 105] 0x9) =
        .ok { events := [], writes := [encodeFrame (parserEncode (utf8Encode (utf8Decode [104, 105])) 0x1) 0xA], ended := false, parserBuffer := [] } :=
  ⟨by decide, pong_double_framed [] [104, 105] (by decide)⟩

/-- C9 counterexample: the bytes `broadcast("x")` writes are the doubly
framed `parser.encode` output `[0x81, 3, 0x81, 1, 120]`, which differ from
the message-Envelope/Frame encoding of `"x"` that
`CreamSocketParser.sendMessage` produces — the broadcast payload carries no
`type: "message"` envelope. -/
theorem broadcast_envelope_counter :
    broadcastFrame (ascii "x") = [0x81, 3, 0x81, 1, 120] ∧
      broadcastFrame (ascii "x") ≠ sendMessageFrame (ascii "x") :=
  ⟨rfl, by decide⟩

/-- C9 amended: `broadcast` parser-frame-encodes the payload once (with no
message-Envelope wrapper), wraps it in an outer `0x1` frame, and writes the
identical bytes to every currently-registered connection; the bytes written
to one connection do not depend on the other registered connections. -/
theorem broadcast_fanout {α : Type} (clients : List α) (message : List Nat) :
    (broadcastWrites clients message).map Prod.fst = clients ∧
      ∀ w ∈ broadcastWrites clients message,
        w.2 = encodeFrame (parserEncode message 0x1) 0x1 := by
  constructor
  · simp [broadcastWrites, Function.comp_def]
  · intro w hw
    simp only [broadcastWrites, List.mem_map] at hw
    obtain ⟨c, _, rfl⟩ := hw
    rfl

/-- Witness for the amended C9 with three registered connections and payload
`"x"`. -/
theorem broadcast_fanout_witness :
    ((broadcastWrites [0, 1, 2] (ascii "x")).map Prod.fst = [0, 1, 2]) ∧
      ((broadcastWrites [0, 1, 2] (ascii "x")).getD 1 (0, [])).2 =
        encodeFrame (parserEncode (ascii "x") 0x1) 0x1 :=
  ⟨(broadcast_fanout [0, 1, 2] (ascii "x")).1,
    (broadcast_fanout [0, 1, 2] (ascii "x")).2 _ (by decide)⟩

/-- C10: `CreamSocketParser.decode` applied to anything that is not a
`Uint8Array` returns `null` without raising, and the accumulation buffer is
left exactly as it was. -/
theorem parser_decode_rejects_non_bytes (buffer : List Nat) (v : JsValue)
    (h : isUint8Array v = false) :
    parserDecode buffer v = .ok (none, buffer) := by
  cases v
  case bytes b => simp [isUint8Array] at h
  all_goals rfl

/-- Witness for C10 at the string argument `"hi"` and a non-empty
accumulation buffer. -/
theorem parser_decode_rejects_non_bytes_witness :
    isUint8Array (.str (ascii "hi")) = false ∧
      parserDecode [1, 2] (.str (ascii "hi")) = .ok (none, [1, 2]) :=
  ⟨rfl, parser_decode_rejects_non_bytes [1, 2] (.str (ascii "hi")) rfl⟩

theorem getD_range_map (g : Nat → Nat) (n i : Nat) (h : i < n) :
    ((List.range n).map g).getD i 0 = g i := by
  rw [List.getD_eq_getElem?_getD, List.getElem?_map, List.getElem?_range h]
  rfl

theorem jsSlice_key2 (a b k0 k1 k2 k3 : Nat) (t : List Nat) :
    jsSlice (a :: b :: k0 :: k1 :: k2 :: k3 :: t) 2 (2 + 4) = [k0, k1, k2, k3] := by
  simpa using jsSlice_mid [a, b] [k0, k1, k2, k3] t

theorem jsSlice_payload6 (a b k0 k1 k2 k3 : Nat) (P t : List Nat) :
    jsSlice (a :: b :: k0 :: k1 :: k2 :: k3 :: (P ++ t)) (2 + 4) (2 + 4 + P.length) = P := by
  simpa using jsSlice_mid [a, b, k0, k1, k2, k3] P t

theorem masked_payload_spec (k0 k1 k2 k3 : Nat) (P : List Nat)
    (hxor : ∀ i, i < P.length → P.getD i 0 ^^^ [k0, k1, k2, k3].getD (i % 4) 0 < 128) :
    (utf8Decode ((List.range P.length).map
        (fun i => (P.getD i 0 ^^^ [k0, k1, k2, k3].getD (i % 4) 0) % 256))).length =
      P.length ∧
      ∀ i, i < P.length →
        (utf8Decode ((List.range P.length).map
            (fun i => (P.getD i 0 ^^^ [k0, k1, k2, k3].getD (i % 4) 0) % 256))).getD i 0 =
          P.getD i 0 ^^^ [k0, k1, k2, k3].getD (i % 4) 0 := by
  have hasc : ∀ b ∈ (List.range P.length).map
      (fun i => (P.getD i 0 ^^^ [k0, k1, k2, k3].getD (i % 4) 0) % 256), b < 128 := by
    intro b hb
    simp only [List.mem_map, List.mem_range] at hb
    obtain ⟨i, hi, rfl⟩ := hb
    have := hxor i hi
    omega
  rw [utf8Decode_ascii _ hasc]
  refine ⟨by simp, ?_⟩
  intro i hi
  rw [getD_range_map _ _ _ hi]
  have := hxor i hi
  omega

theorem masking_case1 (f : Nat) (k0 k1 k2 k3 : Nat) (P rest : List Nat)
    (hlen : P.length < 126) :
    decodeFrame (f :: (128 + P.length) :: k0 :: k1 :: k2 :: k3 :: (P ++ rest)) =
      .ok { fin := (f &&& 128) >>> 7, opcode := f &&& 15,
            payload := utf8Decode ((List.range P.length).map
              (fun i => (P.getD i 0 ^^^ [k0, k1, k2, k3].getD (i % 4) 0) % 256)) } := by
  rw [decodeFrame]
  rw [if_neg (by simp)]
  dsimp only
  rw [show (f :: (128 + P.length) :: k0 :: k1 :: k2 :: k3 :: (P ++ rest)).getD 0 0 = f from rfl,
    show (f :: (128 + P.length) :: k0 :: k1 :: k2 :: k3 :: (P ++ rest)).getD 1 0 =
      128 + P.length from rfl]
  have hpl : (128 + P.length) &&& 127 = P.length := by
    rw [and127_eq_mod]
    omega
  rw [readLength_direct _ _ (by rw [and127_eq_mod]; omega) (by rw [and127_eq_mod]; omega), hpl]
  dsimp only
  have hm : ((128 + P.length) &&& 128) >>> 7 = 1 := maskBit_one (by omega)
  rw [hm]
  simp only [if_pos (show (1 : Nat) = 1 from rfl), if_true]
  rw [jsSlice_key2, jsSlice_payload6]

theorem jsSlice_key4 (a b c d k0 k1 k2 k3 : Nat) (t : List Nat) :
    jsSlice (a :: b :: c :: d :: k0 :: k1 :: k2 :: k3 :: t) 4 (4 + 4) = [k0, k1, k2, k3] := by
  simpa using jsSlice_mid [a, b, c, d] [k0, k1, k2, k3] t

theorem jsSlice_payload8 (a b c d k0 k1 k2 k3 : Nat) (P t : List Nat) :
    jsSlice (a :: b :: c :: d :: k0 :: k1 :: k2 :: k3 :: (P ++ t)) (4 + 4)
      (4 + 4 + P.length) = P := by
  simpa using jsSlice_mid [a, b, c, d, k0, k1, k2, k3] P t

theorem jsSlice_key10 (a b c0 c1 c2 c3 c4 c5 c6 c7 k0 k1 k2 k3 : Nat) (t : List Nat) :
    jsSlice (a :: b :: c0 :: c1 :: c2 :: c3 :: c4 :: c5 :: c6 :: c7 ::
      k0 :: k1 :: k2 :: k3 :: t) 10 (10 + 4) = [k0, k1, k2, k3] := by
  simpa using jsSlice_mid [a, b, c0, c1, c2, c3, c4, c5, c6, c7] [k0, k1, k2, k3] t

theorem jsSlice_payload14 (a b c0 c1 c2 c3 c4 c5 c6 c7 k0 k1 k2 k3 : Nat) (P t : List Nat) :
    jsSlice (a :: b :: c0 :: c1 :: c2 :: c3 :: c4 :: c5 :: c6 :: c7 ::
      k0 :: k1 :: k2 :: k3 :: (P ++ t)) (10 + 4) (10 + 4 + P.length) = P := by
  simpa using jsSlice_mid [a, b, c0, c1, c2, c3, c4, c5, c6, c7, k0, k1, k2, k3] P t

theorem masking_case2 (f hi lo k0 k1 k2 k3 : Nat) (P rest : List Nat)
    (hv : hi * 256 + lo = P.length) :
    decodeFrame (f :: (128 + 126) :: hi :: lo :: k0 :: k1 :: k2 :: k3 :: (P ++ rest)) =
      .ok { fin := (f &&& 128) >>> 7, opcode := f &&& 15,
            payload := utf8Decode ((List.range P.length).map
              (fun i => (P.getD i 0 ^^^ [k0, k1, k2, k3].getD (i % 4) 0) % 256)) } := by
  rw [decodeFrame]
  rw [if_neg (by simp)]
  dsimp only
  rw [show (f :: (128 + 126) :: hi :: lo :: k0 :: k1 :: k2 :: k3 :: (P ++ rest)).getD 0 0 = f
      from rfl,
    show (f :: (128 + 126) :: hi :: lo :: k0 :: k1 :: k2 :: k3 :: (P ++ rest)).getD 1 0 =
      128 + 126 from rfl]
  rw [readLength_ext16 _ _ (by decide) (by simp)]
  dsimp only
  rw [show (f :: (128 + 126) :: hi :: lo :: k0 :: k1 :: k2 :: k3 :: (P ++ rest)).getD 2 0 = hi
      from rfl,
    show (f :: (128 + 126) :: hi :: lo :: k0 :: k1 :: k2 :: k3 :: (P ++ rest)).getD 3 0 = lo
      from rfl, hv]
  have hm : ((128 + 126) &&& 128) >>> 7 = 1 := by decide
  rw [hm]
  simp only [if_pos (show (1 : Nat) = 1 from rfl), if_true]
  rw [jsSlice_key4, jsSlice_payload8]

theorem masking_case3 (f e0 e1 e2 e3 e4 e5 e6 e7 k0 k1 k2 k3 : Nat) (P rest : List Nat)
    (hv : e0 * 2 ^ 56 + e1 * 2 ^ 48 + e2 * 2 ^ 40 + e3 * 2 ^ 32 + e4 * 2 ^ 24 + e5 * 2 ^ 16 +
      e6 * 2 ^ 8 + e7 = P.length) :
    decodeFrame (f :: (128 + 127) :: e0 :: e1 :: e2 :: e3 :: e4 :: e5 :: e6 :: e7 ::
        k0 :: k1 :: k2 :: k3 :: (P ++ rest)) =
      .ok { fin := (f &&& 128) >>> 7, opcode := f &&& 15,
            payload := utf8Decode ((List.range P.length).map
              (fun i => (P.getD i 0 ^^^ [k0, k1, k2, k3].getD (i % 4) 0) % 256)) } := by
  rw [decodeFrame]
  rw [if_neg (by simp)]
  dsimp only
  rw [show (f :: (128 + 127) :: e0 :: e1 :: e2 :: e3 :: e4 :: e5 :: e6 :: e7 ::
        k0 :: k1 :: k2 :: k3 :: (P ++ rest)).getD 0 0 = f from rfl,
    show (f :: (128 + 127) :: e0 :: e1 :: e2 :: e3 :: e4 :: e5 :: e6 :: e7 ::
        k0 :: k1 :: k2 :: k3 :: (P ++ rest)).getD 1 0 = 128 + 127 from rfl]
  rw [readLength_ext64 _ _ (by decide) (by simp)]
  dsimp only
  rw [show (f :: (128 + 127) :: e0 :: e1 :: e2 :: e3 :: e4 :: e5 :: e6 :: e7 ::
        k0 :: k1 :: k2 :: k3 :: (P ++ rest)).getD 2 0 = e0 from rfl,
    show (f :: (128 + 127) :: e0 :: e1 :: e2 :: e3 :: e4 :: e5 :: e6 :: e7 ::
        k0 :: k1 :: k2 :: k3 :: (P ++ rest)).getD 3 0 = e1 from rfl,
    show (f :: (128 + 127) :: e0 :: e1 :: e2 :: e3 :: e4 :: e5 :: e6 :: e7 ::
        k0 :: k1 :: k2 :: k3 :: (P ++ rest)).getD 4 0 = e2 from rfl,
    show (f :: (128 + 127) :: e0 :: e1 :: e2 :: e3 :: e4 :: e5 :: e6 :: e7 ::
        k0 :: k1 :: k2 :: k3 :: (P ++ rest)).getD 5 0 = e3 from rfl,
    show (f :: (128 + 127) :: e0 :: e1 :: e2 :: e3 :: e4 :: e5 :: e6 :: e7 ::
        k0 :: k1 :: k2 :: k3 :: (P ++ rest)).getD 6 0 = e4 from rfl,
    show (f :: (128 + 127) :: e0 :: e1 :: e2 :: e3 :: e4 :: e5 :: e6 :: e7 ::
        k0 :: k1 :: k2 :: k3 :: (P ++ rest)).getD 7 0 = e5 from rfl,
    show (f :: (128 + 127) :: e0 :: e1 :: e2 :: e3 :: e4 :: e5 :: e6 :: e7 ::
        k0 :: k1 :: k2 :: k3 :: (P ++ rest)).getD 8 0 = e6 from rfl,
    show (f :: (128 + 127) :: e0 :: e1 :: e2 :: e3 :: e4 :: e5 :: e6 :: e7 ::
        k0 :: k1 :: k2 :: k3 :: (P ++ rest)).getD 9 0 = e7 from rfl, hv]
  have hm : ((128 + 127) &&& 128) >>> 7 = 1 := by decide
  rw [hm]
  simp only [if_pos (show (1 : Nat) = 1 from rfl), if_true]
  rw [jsSlice_key10, jsSlice_payload14]

/-- C7 counterexample: a masked frame whose unmasked payload byte is `0xFF`
(wire payload `0xFF`, masking key `[0, 0, 0, 0]`) decodes to the replacement
character U+FFFD rather than to `P[0] XOR k[0] = 0xFF`, because
`_decodeFrame`'s final `toString()` is a lossy UTF-8 decode. -/
theorem masking_xor_counter :
    decodeFrame [0x81, 0x81, 0, 0, 0, 0, 0xFF] =
      .ok { fin := 1, opcode := 1, payload := [0xFFFD] } ∧
      ([0xFFFD] : List Nat).getD 0 0 ≠ (0xFF : Nat) ^^^ 0 :=
  ⟨rfl, by decide⟩

/-- C7 amended: for every masked input frame (mask bit set, any of the three
length encodings declaring the wire payload length, masking key
`[k0, k1, k2, k3]` and wire payload `P`), the decoder XORs each payload byte
with `k[i mod 4]` and then converts the result with `toString()`: the
decoded payload is the UTF-8 string decoding of the unmasked bytes, and
whenever every unmasked byte is ASCII (below `0x80`) the payload has length
`P.length` with byte `i` equal to `P[i] XOR k[i mod 4]` at every index. -/
theorem masking_xor (f L : Nat) (ext : List Nat) (k0 k1 k2 k3 : Nat) (P rest : List Nat)
    (hL : lengthEncodes L ext P.length) :
    ∃ fr,
      decodeFrame (f :: (128 + L) :: (ext ++ k0 :: k1 :: k2 :: k3 :: (P ++ rest))) = .ok fr ∧
        fr.payload = utf8Decode ((List.range P.length).map
          (fun i => (P.getD i 0 ^^^ [k0, k1, k2, k3].getD (i % 4) 0) % 256)) ∧
        ((∀ i, i < P.length → P.getD i 0 ^^^ [k0, k1, k2, k3].getD (i % 4) 0 < 128) →
          fr.payload.length = P.length ∧
            ∀ i, i < P.length →
              fr.payload.getD i 0 = P.getD i 0 ^^^ [k0, k1, k2, k3].getD (i % 4) 0) := by
  rcases hL with ⟨hL, hlen, hext⟩ | ⟨hL, hi, lo, hext, hv⟩ |
    ⟨hL, e0, e1, e2, e3, e4, e5, e6, e7, hext, hv⟩
  · subst hL
    subst hext
    exact ⟨_, masking_case1 f k0 k1 k2 k3 P rest hlen, rfl,
      fun hx => masked_payload_spec k0 k1 k2 k3 P hx⟩
  · subst hL
    subst hext
    exact ⟨_, masking_case2 f hi lo k0 k1 k2 k3 P rest hv, rfl,
      fun hx => masked_payload_spec k0 k1 k2 k3 P hx⟩
  · subst hL
    subst hext
    exact ⟨_, masking_case3 f e0 e1 e2 e3 e4 e5 e6 e7 k0 k1 k2 k3 P rest hv, rfl,
      fun hx => masked_payload_spec k0 k1 k2 k3 P hx⟩

/-- Witness for the amended C7: an extended-16 masked frame with key
`[1, 2, 3, 4]` and payload `[104, 105]` declared through the two-byte length
`0, 2`. -/
theorem masking_xor_witness :
    lengthEncodes 126 [0, 2] ([104, 105] : List Nat).length ∧
      ∃ fr,
        decodeFrame
            (0x81 :: (128 + 126) :: ([0, 2] ++ 1 :: 2 :: 3 :: 4 :: ([104, 105] ++ []))) =
          .ok fr ∧
          fr.payload = utf8Decode ((List.range ([104, 105] : List Nat).length).map
            (fun i => ([104, 105].getD i 0 ^^^ [1, 2, 3, 4].getD (i % 4) 0) % 256)) ∧
          ((∀ i, i < ([104, 105] : List Nat).length →
              [104, 105].getD i 0 ^^^ [1, 2, 3, 4].getD (i % 4) 0 < 128) →
            fr.payload.length = ([104, 105] : List Nat).length ∧
              ∀ i, i < ([104, 105] : List Nat).length →
                fr.payload.getD i 0 = [104, 105].getD i 0 ^^^ [1, 2, 3, 4].getD (i % 4) 0) :=
  ⟨Or.inr (Or.inl ⟨rfl, 0, 2, rfl, rfl⟩),
    masking_xor 0x81 126 [0, 2] 1 2 3 4 [104, 105] []
      (Or.inr (Or.inl ⟨rfl, 0, 2, rfl, rfl⟩))⟩

end CreamSocket
